import Mathlib

/-!
Verification development for the lockstep-sdk-typescript client library.

The repository under verification ships resource clients (EmailsClient,
LeadsClient, CompaniesClient, CustomFieldDefinitionsClient) that delegate
every call to a shared API Client (`LockstepApi`).  The resource clients
are embedded here directly from their TypeScript sources.  The API Client,
Result Normalizer and Transport Adapter sources are not part of the given
source tree (only their callers are), so they are modelled from the design
specification; every such definition carries a doc comment starting with
`Modelled from the spec:`.
-/

namespace Lockstep

/-- A JSON-like value: request and response bodies and the contents of
query parameters are drawn from this type. -/
inductive Json where
  | null : Json
  | str : String → Json
  | num : Int → Json
  | bool : Bool → Json
  | arr : List Json → Json
  | obj : List (String × Json) → Json
deriving Inhabited

/-- A scalar query-parameter value: the resource clients only ever place
strings and numbers into the `params` mapping. -/
inductive Scalar where
  | s : String → Scalar
  | n : Int → Scalar
deriving DecidableEq, Repr

/-- The `params` mapping of an options object: query-parameter name to
scalar value, where `none` models a JavaScript `undefined`/absent value. -/
abbrev ParamsObject : Type := List (String × Option Scalar)

/-- The options object accepted by the API Client verbs: its only
recognized field is `params`. -/
structure Options where
  params : ParamsObject
deriving DecidableEq

/-- The four HTTP verbs the API Client exposes. -/
inductive HttpMethod where
  | get : HttpMethod
  | post : HttpMethod
  | patch : HttpMethod
  | delete : HttpMethod
deriving DecidableEq, Repr

/-- Modelled from the spec: the Request Descriptor (section 3) handed to
the Transport Adapter: HTTP method, resource-scoped path, the encoded
query-parameter set (entries already dropped when absent), and an optional
opaque body. -/
structure RequestDescriptor where
  httpMethod : HttpMethod
  path : String
  queryParams : List (String × Scalar)
  body : Option Json

/-- Modelled from the spec: the raw outcome of one Transport Adapter round
trip (section 4.3): either a raw HTTP response (status plus body), or a
transport-level failure carrying only a message, with no HTTP status
(status present versus absent is the discriminator the Normalizer uses). -/
inductive TransportOutcome where
  | response : Nat → Json → TransportOutcome
  | failure : String → TransportOutcome

/-- Modelled from the spec: the Error Result (section 3): a uniform
structure carrying the HTTP status code (`none` is the sentinel no-status
marker for transport failures), a human-readable message, and an optional
collection of field-level validation errors. -/
structure ErrorResult where
  status : Option Nat
  message : String
  errors : List (String × String)
deriving DecidableEq

/-- Modelled from the spec: the two-member union every API Client call
resolves to: the deserialized response body (no wrapping envelope), or an
Error Result. -/
inductive ApiResult where
  | success : Json → ApiResult
  | error : ErrorResult → ApiResult

/-- Looks up a field of a JSON object body; `none` when the body is not an
object or lacks the field. -/
def lookupField (body : Json) (key : String) : Option Json :=
  match body with
  | Json.obj fields => (fields.find? (fun p => p.1 = key)).map Prod.snd
  | _ => none

/-- Modelled from the spec: message extraction of the Result Normalizer
(section 4.2 c and d): the message is taken from the error body when it is
structured and well-formed, with a fallback to a generic message naming
the status when the error body is absent or malformed. -/
def extractMessage (body : Json) (status : Nat) : String :=
  match lookupField body "message" with
  | some (Json.str m) => m
  | _ => "The server returned HTTP status " ++ toString status

/-- Modelled from the spec: validation-detail extraction of the Result
Normalizer (section 4.2 c): the optional field-level validation map is
taken from the structured error body when present, and is empty
otherwise. -/
def extractValidation (body : Json) : List (String × String) :=
  match lookupField body "errors" with
  | some (Json.obj fields) =>
      fields.filterMap (fun p =>
        match p.2 with
        | Json.str m => some (p.1, m)
        | _ => none)
  | _ => []

/-- Modelled from the spec: the Result Normalizer (section 4.2), a pure
function from a raw transport outcome to the success-or-error union:
a 2xx status deserializes the body as the success value; any other status
becomes an Error Result keeping the original HTTP status; a transport
failure becomes an Error Result with the no-status sentinel and the
transport error message. -/
def normalize (outcome : TransportOutcome) : ApiResult :=
  match outcome with
  | TransportOutcome.response status body =>
      if 200 ≤ status ∧ status < 300 then
        ApiResult.success body
      else
        ApiResult.error
          ⟨some status, extractMessage body status, extractValidation body⟩
  | TransportOutcome.failure msg =>
      ApiResult.error ⟨none, msg, []⟩

/-- Modelled from the spec: whether one defined scalar entry of the
`params` mapping is dropped at encoding time.  Section 4.1 drops entries
whose value is `undefined`/absent; the query-parameter-omission property
and the `queryEmails` scenario (section 8) further require that a
query-style argument left unset as the empty string produces no key at
all in the dispatched parameter set, so empty-string values are dropped
as well. -/
def scalarDropped (v : Scalar) : Bool :=
  match v with
  | Scalar.s str => str = ""
  | Scalar.n _ => false

/-- Modelled from the spec: encoding of the `params` mapping into the
dispatched query-parameter set: entries with `undefined`/absent values
are dropped, entries left unset as the empty string are dropped, and all
other entries are kept in order. -/
def encodeParams : ParamsObject → List (String × Scalar)
  | [] => []
  | (k, some v) :: rest =>
      if scalarDropped v then encodeParams rest
      else (k, v) :: encodeParams rest
  | (_, none) :: rest => encodeParams rest

/-- Modelled from the spec: construction of the immutable Request
Descriptor for one call (section 3): the descriptor is built fresh per
call from the verb, the resource-scoped path, the encoded query
parameters of the options object (empty when options is null), and the
optional body. -/
def buildRequest (m : HttpMethod) (path : String) (o : Option Options)
    (b : Option Json) : RequestDescriptor :=
  ⟨m, path,
    encodeParams (match o with
      | none => []
      | some opts => opts.params),
    b⟩

/-- Modelled from the spec: the API Client facade (section 4.1): it holds
the base URL and credential session state fixed at construction, and owns
the Transport Adapter, here a substitutable function from a Request
Descriptor to a raw transport outcome. -/
structure LockstepApi where
  serverUrl : String
  apiKey : String
  transport : RequestDescriptor → TransportOutcome

/-- Modelled from the spec: the generic `request` entry point all four
verb operations delegate to: it builds the Request Descriptor, issues the
call through the Transport Adapter, and normalizes the raw outcome into
the success-or-error union; every call resolves to exactly one member of
that union and never throws for ordinary outcomes. -/
def LockstepApi.request (c : LockstepApi) (m : HttpMethod) (path : String)
    (o : Option Options) (b : Option Json) : ApiResult :=
  normalize (c.transport (buildRequest m path o b))

/-- Modelled from the spec: the `get` verb operation, delegating to the
generic `request` with no body. -/
def LockstepApi.get (c : LockstepApi) (path : String) (o : Option Options) :
    ApiResult :=
  c.request HttpMethod.get path o none

/-- Modelled from the spec: the `post` verb operation, delegating to the
generic `request`. -/
def LockstepApi.post (c : LockstepApi) (path : String) (o : Option Options)
    (b : Option Json) : ApiResult :=
  c.request HttpMethod.post path o b

/-- Modelled from the spec: the `patch` verb operation, delegating to the
generic `request`. -/
def LockstepApi.patch (c : LockstepApi) (path : String) (o : Option Options)
    (b : Option Json) : ApiResult :=
  c.request HttpMethod.patch path o b

/-- Modelled from the spec: the `delete` verb operation, delegating to the
generic `request` with no body. -/
def LockstepApi.delete (c : LockstepApi) (path : String) (o : Option Options) :
    ApiResult :=
  c.request HttpMethod.delete path o none

/-- The EmailsClient resource client (src/clients/EmailsClient.tsx): its
only field is a private read-only reference to the API Client, set by the
constructor. -/
structure EmailsClient where
  client : LockstepApi

/-- EmailsClient.retrieveEmail: builds the path by interpolating the id
into /api/v1/Emails/ and issues a get with an options object carrying the
include parameter. -/
def EmailsClient.retrieveEmail (self : EmailsClient) (id inc : String) :
    ApiResult :=
  let url := "/api/v1/Emails/" ++ id
  let options : Options := ⟨[("include", some (Scalar.s inc))]⟩
  self.client.get url (some options)

/-- EmailsClient.updateEmail: builds the path from the id and issues a
patch carrying the body, with null options. -/
def EmailsClient.updateEmail (self : EmailsClient) (id : String)
    (body : Json) : ApiResult :=
  let url := "/api/v1/Emails/" ++ id
  self.client.patch url none (some body)

/-- EmailsClient.deleteEmail: builds the path from the id and issues a
delete with null options. -/
def EmailsClient.deleteEmail (self : EmailsClient) (id : String) :
    ApiResult :=
  let url := "/api/v1/Emails/" ++ id
  self.client.delete url none

/-- EmailsClient.retrieveEmailLogo: builds the path by interpolating the
email id and the nonce and issues a get with null options. -/
def EmailsClient.retrieveEmailLogo (self : EmailsClient)
    (emailId nonce : String) : ApiResult :=
  let url := "/api/v1/Emails/" ++ emailId ++ "/logo/" ++ nonce
  self.client.get url none

/-- EmailsClient.createEmails: issues a post to /api/v1/Emails carrying
the array body, with null options. -/
def EmailsClient.createEmails (self : EmailsClient) (body : Json) :
    ApiResult :=
  let url := "/api/v1/Emails"
  self.client.post url none (some body)

/-- EmailsClient.queryEmails: issues a get to /api/v1/Emails/query with an
options object carrying filter, include, order, pageSize and pageNumber. -/
def EmailsClient.queryEmails (self : EmailsClient) (filter inc order : String)
    (pageSize pageNumber : Int) : ApiResult :=
  let url := "/api/v1/Emails/query"
  let options : Options :=
    ⟨[("filter", some (Scalar.s filter)),
      ("include", some (Scalar.s inc)),
      ("order", some (Scalar.s order)),
      ("pageSize", some (Scalar.n pageSize)),
      ("pageNumber", some (Scalar.n pageNumber))]⟩
  self.client.get url (some options)

/-- The LeadsClient resource client (src/clients/EmailsClient.tsx, second
unit): its only field is a private read-only reference to the API
Client. -/
structure LeadsClient where
  client : LockstepApi

/-- LeadsClient.createLeads: issues a post to /api/v1/Leads carrying the
body, with null options. -/
def LeadsClient.createLeads (self : LeadsClient) (body : Json) : ApiResult :=
  let url := "/api/v1/Leads"
  self.client.post url none (some body)

/-- The CompaniesClient resource client (src/clients/EmailsClient.tsx,
third unit): its only field is a private read-only reference to the API
Client. -/
structure CompaniesClient where
  client : LockstepApi

/-- CompaniesClient.retrieveCompany: builds the path from the id and
issues a get with an options object carrying the include parameter. -/
def CompaniesClient.retrieveCompany (self : CompaniesClient)
    (id inc : String) : ApiResult :=
  let url := "/api/v1/Companies/" ++ id
  let options : Options := ⟨[("include", some (Scalar.s inc))]⟩
  self.client.get url (some options)

/-- CompaniesClient.updateCompany: builds the path from the id and issues
a patch carrying the body, with null options. -/
def CompaniesClient.updateCompany (self : CompaniesClient) (id : String)
    (body : Json) : ApiResult :=
  let url := "/api/v1/Companies/" ++ id
  self.client.patch url none (some body)

/-- CompaniesClient.disableCompany: builds the path from the id and issues
a delete with null options. -/
def CompaniesClient.disableCompany (self : CompaniesClient) (id : String) :
    ApiResult :=
  let url := "/api/v1/Companies/" ++ id
  self.client.delete url none

/-- CompaniesClient.createCompanies: issues a post to /api/v1/Companies
carrying the array body, with null options. -/
def CompaniesClient.createCompanies (self : CompaniesClient) (body : Json) :
    ApiResult :=
  let url := "/api/v1/Companies"
  self.client.post url none (some body)

/-- CompaniesClient.queryCompanies: issues a get to
/api/v1/Companies/query with an options object carrying filter, include,
order, pageSize and pageNumber. -/
def CompaniesClient.queryCompanies (self : CompaniesClient)
    (filter inc order : String) (pageSize pageNumber : Int) : ApiResult :=
  let url := "/api/v1/Companies/query"
  let options : Options :=
    ⟨[("filter", some (Scalar.s filter)),
      ("include", some (Scalar.s inc)),
      ("order", some (Scalar.s order)),
      ("pageSize", some (Scalar.n pageSize)),
      ("pageNumber", some (Scalar.n pageNumber))]⟩
  self.client.get url (some options)

/-- CompaniesClient.queryCustomerSummary: issues a get to
/api/v1/Companies/views/customer-summary with an options object carrying
filter, include, order, pageSize and pageNumber. -/
def CompaniesClient.queryCustomerSummary (self : CompaniesClient)
    (filter inc order : String) (pageSize pageNumber : Int) : ApiResult :=
  let url := "/api/v1/Companies/views/customer-summary"
  let options : Options :=
    ⟨[("filter", some (Scalar.s filter)),
      ("include", some (Scalar.s inc)),
      ("order", some (Scalar.s order)),
      ("pageSize", some (Scalar.n pageSize)),
      ("pageNumber", some (Scalar.n pageNumber))]⟩
  self.client.get url (some options)

/-- CompaniesClient.retrieveCustomerDetail: builds the path from the id
under /api/v1/Companies/views/customer-details/ and issues a get with
null options. -/
def CompaniesClient.retrieveCustomerDetail (self : CompaniesClient)
    (id : String) : ApiResult :=
  let url := "/api/v1/Companies/views/customer-details/" ++ id
  self.client.get url none

/-- The CustomFieldDefinitionsClient resource client
(src/clients/CustomFieldDefinitionsClient.ts): its only field is a
private read-only reference to the API Client.  Unlike the other clients
its methods call the generic request entry point directly. -/
structure CustomFieldDefinitionsClient where
  client : LockstepApi

/-- CustomFieldDefinitionsClient.retrieveFieldDefinition: builds the path
from the id and calls request with the get verb, an options object
carrying include, and a null body. -/
def CustomFieldDefinitionsClient.retrieveFieldDefinition
    (self : CustomFieldDefinitionsClient) (id inc : String) : ApiResult :=
  let url := "/api/v1/CustomFieldDefinitions/" ++ id
  let options : Options := ⟨[("include", some (Scalar.s inc))]⟩
  self.client.request HttpMethod.get url (some options) none

/-- CustomFieldDefinitionsClient.updateFieldDefinition: builds the path
from the id and calls request with the patch verb, null options and the
body. -/
def CustomFieldDefinitionsClient.updateFieldDefinition
    (self : CustomFieldDefinitionsClient) (id : String) (body : Json) :
    ApiResult :=
  let url := "/api/v1/CustomFieldDefinitions/" ++ id
  self.client.request HttpMethod.patch url none (some body)

/-- CustomFieldDefinitionsClient.deleteFieldDefinition: builds the path
from the id and calls request with the delete verb, null options and a
null body. -/
def CustomFieldDefinitionsClient.deleteFieldDefinition
    (self : CustomFieldDefinitionsClient) (id : String) : ApiResult :=
  let url := "/api/v1/CustomFieldDefinitions/" ++ id
  self.client.request HttpMethod.delete url none none

/-- CustomFieldDefinitionsClient.createFieldDefinitions: calls request
with the post verb on /api/v1/CustomFieldDefinitions, null options and
the array body. -/
def CustomFieldDefinitionsClient.createFieldDefinitions
    (self : CustomFieldDefinitionsClient) (body : Json) : ApiResult :=
  let url := "/api/v1/CustomFieldDefinitions"
  self.client.request HttpMethod.post url none (some body)

/-- CustomFieldDefinitionsClient.queryFieldDefinitions: calls request with
the get verb on /api/v1/CustomFieldDefinitions/query, an options object
carrying filter, include, order, pageSize and pageNumber, and a null
body. -/
def CustomFieldDefinitionsClient.queryFieldDefinitions
    (self : CustomFieldDefinitionsClient) (filter inc order : String)
    (pageSize pageNumber : Int) : ApiResult :=
  let url := "/api/v1/CustomFieldDefinitions/query"
  let options : Options :=
    ⟨[("filter", some (Scalar.s filter)),
      ("include", some (Scalar.s inc)),
      ("order", some (Scalar.s order)),
      ("pageSize", some (Scalar.n pageSize)),
      ("pageNumber", some (Scalar.n pageNumber))]⟩
  self.client.request HttpMethod.get url (some options) none

/-! Fixtures and helper notions used to state the verified properties. -/

/-- The single-quote character, written by code point. -/
def squote : String := String.mk [Char.ofNat 39]

/-- The scenario filter string: the word status, eq, and the word open
wrapped in single quotes. -/
def openFilter : String := "status eq " ++ squote ++ "open" ++ squote

/-- The uniform query-style parameter object every query method passes:
filter, include, order, pageSize, pageNumber, in this order. -/
def stdQueryParams (filter inc order : String) (pageSize pageNumber : Int) :
    ParamsObject :=
  [("filter", some (Scalar.s filter)),
   ("include", some (Scalar.s inc)),
   ("order", some (Scalar.s order)),
   ("pageSize", some (Scalar.n pageSize)),
   ("pageNumber", some (Scalar.n pageNumber))]

/-- Whether a path string ends with the six characters of /query. -/
def pathEndsWithQuery (p : String) : Bool :=
  p.toList.reverse.take 6 == ("/query".toList).reverse

/-- Splits a character list at every slash, keeping empty segments, so a
path maps to its route segments. -/
def splitSlash : List Char → List (List Char)
  | [] => [[]]
  | c :: rest =>
      match splitSlash rest with
      | [] => [[]]
      | seg :: segs =>
          if c = '/' then [] :: seg :: segs else (c :: seg) :: segs

/-- The route segments of a path string. -/
def routeSegments (p : String) : List (List Char) :=
  splitSlash p.toList

/-- Whether a path targets the single-item Emails endpoint
/api/v1/Emails and one id segment, with an id segment free of the query
and fragment delimiters: the route shape the retrieve methods intend. -/
def isEmailsItemRoute (p : String) : Bool :=
  match routeSegments p with
  | [root, a, v, r, idSeg] =>
      root.isEmpty && (a == "api".toList) && (v == "v1".toList) &&
        (r == "Emails".toList) &&
        idSeg.all (fun ch => (ch != Char.ofNat 63) && (ch != Char.ofNat 35))
  | _ => false

/-- The structured 404 body of the not-found scenario. -/
def notFoundBody : Json :=
  Json.obj [("status", Json.num 404), ("message", Json.str "Not Found")]

/-- A mock Transport Adapter answering every request with status 404 and
the structured not-found body. -/
def mockTransport404 : RequestDescriptor → TransportOutcome :=
  fun _ => TransportOutcome.response 404 notFoundBody

/-- A mock API Client wired to the 404 transport. -/
def client404 : LockstepApi :=
  ⟨"https://api.lockstep.test", "key-404", mockTransport404⟩

/-- The success body of the retrieve scenario. -/
def emailBody : Json :=
  Json.obj [("id", Json.str "abc-123"), ("subject", Json.str "Hi")]

/-- A mock Transport Adapter answering every request with status 200 and
the email body. -/
def mockTransport200 : RequestDescriptor → TransportOutcome :=
  fun _ => TransportOutcome.response 200 emailBody

/-- A mock API Client wired to the 200 transport. -/
def client200 : LockstepApi :=
  ⟨"https://api.lockstep.test", "key-200", mockTransport200⟩

/-- A mock Transport Adapter failing every request at the transport
level, simulating a connection refusal. -/
def mockTransportFail : RequestDescriptor → TransportOutcome :=
  fun _ => TransportOutcome.failure "connection refused"

/-- A mock API Client wired to the failing transport. -/
def clientFail : LockstepApi :=
  ⟨"https://api.lockstep.test", "key-fail", mockTransportFail⟩

/-- C1: every API Client call resolves and never rejects: for any HTTP
response status or transport-level failure the resolved value is a member
of the two-member union, a success value or an Error Result; a transport
failure with a non-empty message resolves to an Error Result carrying the
no-status sentinel and that non-empty message; and a resource method such
as retrieveEmail is exactly one such request call, so it shares this
disposition. -/
theorem request_resolves_to_union (c : LockstepApi) (m : HttpMethod)
    (p : String) (o : Option Options) (b : Option Json) :
    ((∃ body, c.request m p o b = ApiResult.success body) ∨
      (∃ e, c.request m p o b = ApiResult.error e)) ∧
    (∀ msg,
      c.transport (buildRequest m p o b) = TransportOutcome.failure msg →
      msg ≠ "" →
      c.request m p o b = ApiResult.error ⟨none, msg, []⟩ ∧ msg ≠ "") ∧
    (∀ (cl : LockstepApi) (id inc : String),
      EmailsClient.retrieveEmail ⟨cl⟩ id inc =
        cl.request HttpMethod.get ("/api/v1/Emails/" ++ id)
          (some ⟨[("include", some (Scalar.s inc))]⟩) none) := by
  refine ⟨?_, ?_, ?_⟩
  · cases h : c.transport (buildRequest m p o b) with
    | response s body =>
        by_cases hs : 200 ≤ s ∧ s < 300
        · exact Or.inl ⟨body, by simp [LockstepApi.request, normalize, h, hs]⟩
        · exact Or.inr ⟨⟨some s, extractMessage body s, extractValidation body⟩,
            by simp [LockstepApi.request, normalize, h, hs]⟩
    | failure msg =>
        exact Or.inr ⟨⟨none, msg, []⟩,
          by simp [LockstepApi.request, normalize, h]⟩
  · intro msg hmsg hne
    refine ⟨?_, hne⟩
    unfold LockstepApi.request
    rw [hmsg]
    rfl
  · intro cl id inc
    rfl

/-- Witness for C1: the failing-transport client resolves, to an Error
Result with the no-status sentinel and a non-empty message. -/
theorem request_resolves_to_union_witness :
    clientFail.request HttpMethod.get "/api/v1/Emails/x" none none =
      ApiResult.error ⟨none, "connection refused", []⟩ ∧
    ("connection refused" : String) ≠ "" :=
  (request_resolves_to_union clientFail HttpMethod.get "/api/v1/Emails/x"
      none none).2.1 "connection refused" rfl (by decide)

/-- C2: a response with a non-2xx status resolves to an Error Result
whose status field is exactly the received HTTP status, with message and
validation detail extracted from the response body; and retrieveEmail of
missing-id against a mock server answering 404 with a structured
not-found body resolves to an Error Result with status 404 and message
Not Found. -/
theorem request_keeps_http_status (c : LockstepApi) (m : HttpMethod)
    (p : String) (o : Option Options) (b : Option Json) (s : Nat)
    (body : Json)
    (hresp : c.transport (buildRequest m p o b) =
      TransportOutcome.response s body)
    (hns : ¬ (200 ≤ s ∧ s < 300)) :
    c.request m p o b =
      ApiResult.error
        ⟨some s, extractMessage body s, extractValidation body⟩ ∧
    EmailsClient.retrieveEmail ⟨client404⟩ "missing-id" "" =
      ApiResult.error ⟨some 404, "Not Found", []⟩ :=
  ⟨by simp [LockstepApi.request, hresp, normalize, hns], rfl⟩

/-- Witness for C2 at the 404 mock server. -/
theorem request_keeps_http_status_witness :
    client404.request HttpMethod.get "/api/v1/Emails/missing-id"
        (some ⟨[("include", some (Scalar.s ""))]⟩) none =
      ApiResult.error ⟨some 404, "Not Found", []⟩ ∧
    EmailsClient.retrieveEmail ⟨client404⟩ "missing-id" "" =
      ApiResult.error ⟨some 404, "Not Found", []⟩ :=
  request_keeps_http_status client404 HttpMethod.get
    "/api/v1/Emails/missing-id"
    (some ⟨[("include", some (Scalar.s ""))]⟩) none 404 notFoundBody rfl
    (by decide)

/-- C3: a response with a 2xx status resolves to exactly the deserialized
response body, with no wrapping envelope, and never to an Error Result;
and retrieveEmail of abc-123 against a mock server answering 200 with the
email body resolves to exactly that body. -/
theorem request_success_returns_body (c : LockstepApi) (m : HttpMethod)
    (p : String) (o : Option Options) (b : Option Json) (s : Nat)
    (body : Json)
    (hresp : c.transport (buildRequest m p o b) =
      TransportOutcome.response s body)
    (h200 : 200 ≤ s) (h300 : s < 300) :
    c.request m p o b = ApiResult.success body ∧
    (∀ e, c.request m p o b ≠ ApiResult.error e) ∧
    EmailsClient.retrieveEmail ⟨client200⟩ "abc-123" "Attachments" =
      ApiResult.success emailBody := by
  have h : c.request m p o b = ApiResult.success body := by
    simp [LockstepApi.request, hresp, normalize, h200, h300]
  refine ⟨h, ?_, rfl⟩
  intro e he
  rw [h] at he
  exact ApiResult.noConfusion he

/-- Witness for C3 at the 200 mock server. -/
theorem request_success_returns_body_witness :
    client200.request HttpMethod.get ("/api/v1/Emails/" ++ "abc-123")
        (some ⟨[("include", some (Scalar.s "Attachments"))]⟩) none =
      ApiResult.success emailBody ∧
    EmailsClient.retrieveEmail ⟨client200⟩ "abc-123" "Attachments" =
      ApiResult.success emailBody :=
  ⟨(request_success_returns_body client200 HttpMethod.get
      ("/api/v1/Emails/" ++ "abc-123")
      (some ⟨[("include", some (Scalar.s "Attachments"))]⟩) none 200 emailBody
      rfl (by decide) (by decide)).1,
    (request_success_returns_body client200 HttpMethod.get
      ("/api/v1/Emails/" ++ "abc-123")
      (some ⟨[("include", some (Scalar.s "Attachments"))]⟩) none 200 emailBody
      rfl (by decide) (by decide)).2.2⟩

/-- C4: the scenario call of queryEmails, with filter status eq quoted
open, include empty, order createdDate desc, pageSize 50 and pageNumber
0, hands the API Client a params object that does contain an include
entry bound to the empty string, yet the dispatched query-parameter set
is exactly filter, order, pageSize and pageNumber and contains no include
key at all. -/
theorem queryEmails_scenario_params (c : LockstepApi) :
    EmailsClient.queryEmails ⟨c⟩ openFilter "" "createdDate desc" 50 0 =
      c.get "/api/v1/Emails/query"
        (some ⟨[("filter", some (Scalar.s openFilter)),
                ("include", some (Scalar.s "")),
                ("order", some (Scalar.s "createdDate desc")),
                ("pageSize", some (Scalar.n 50)),
                ("pageNumber", some (Scalar.n 0))]⟩) ∧
    (buildRequest HttpMethod.get "/api/v1/Emails/query"
        (some ⟨[("filter", some (Scalar.s openFilter)),
                ("include", some (Scalar.s "")),
                ("order", some (Scalar.s "createdDate desc")),
                ("pageSize", some (Scalar.n 50)),
                ("pageNumber", some (Scalar.n 0))]⟩) none).queryParams =
      [("filter", Scalar.s openFilter),
       ("order", Scalar.s "createdDate desc"),
       ("pageSize", Scalar.n 50),
       ("pageNumber", Scalar.n 0)] ∧
    ((buildRequest HttpMethod.get "/api/v1/Emails/query"
        (some ⟨[("filter", some (Scalar.s openFilter)),
                ("include", some (Scalar.s "")),
                ("order", some (Scalar.s "createdDate desc")),
                ("pageSize", some (Scalar.n 50)),
                ("pageNumber", some (Scalar.n 0))]⟩) none).queryParams.all
      (fun kv => kv.1 ≠ "include")) = true := by
  refine ⟨rfl, ?_, ?_⟩
  · decide
  · decide

/-- C5 counterexample: a params entry whose value is defined (the empty
string is a defined value, not undefined or absent) is nevertheless
dropped: the dispatched parameter set of a call carrying only an include
entry bound to the empty string is empty, so not every entry with a
defined value is kept. -/
theorem defined_param_dropped_cex :
    (some (Scalar.s "") ≠ (none : Option Scalar)) ∧
    (buildRequest HttpMethod.get "/api/v1/Emails/query"
        (some ⟨[("include", some (Scalar.s ""))]⟩) none).queryParams = [] :=
  ⟨by decide, rfl⟩

/-- The encoded contribution of one params entry: nothing for an
undefined value and nothing for an empty-string value, the key-value pair
otherwise. -/
def encodedEntry (k : String) (v : Option Scalar) : List (String × Scalar) :=
  match v with
  | none => []
  | some s => if scalarDropped s then [] else [(k, s)]

/-- Dropping before encoding is pointwise: encoding distributes over
appending of params objects. -/
theorem encodeParams_append (a b : ParamsObject) :
    encodeParams (a ++ b) = encodeParams a ++ encodeParams b := by
  induction a with
  | nil => rfl
  | cons hd tl ih =>
      obtain ⟨k, v⟩ := hd
      cases v with
      | none => simpa [encodeParams] using ih
      | some s =>
          by_cases hs : scalarDropped s <;> simp [encodeParams, hs, ih]

/-- C5 as amended: entries of a params mapping whose value is undefined
or absent are dropped before URL encoding, and entries whose value is the
empty string are dropped as well (an unset include produces no key);
every other entry with a defined value is kept at its position, and the
dispatched request uses exactly this encoding. -/
theorem params_dropping_disposition (m : HttpMethod) (p : String)
    (b : Option Json) (ps ps₁ ps₂ : ParamsObject) (k : String)
    (v : Option Scalar) :
    (buildRequest m p (some ⟨ps⟩) b).queryParams = encodeParams ps ∧
    encodeParams (ps₁ ++ (k, v) :: ps₂) =
      encodeParams ps₁ ++ encodedEntry k v ++ encodeParams ps₂ ∧
    encodedEntry k none = [] ∧
    encodedEntry k (some (Scalar.s "")) = [] ∧
    (∀ str : String, str ≠ "" →
      encodedEntry k (some (Scalar.s str)) = [(k, Scalar.s str)]) ∧
    (∀ n : Int, encodedEntry k (some (Scalar.n n)) = [(k, Scalar.n n)]) := by
  refine ⟨rfl, ?_, rfl, rfl, ?_, fun n => rfl⟩
  · rw [encodeParams_append]
    have h : encodeParams ((k, v) :: ps₂) = encodedEntry k v ++ encodeParams ps₂ := by
      cases v with
      | none => simp [encodeParams, encodedEntry]
      | some s =>
          by_cases hs : scalarDropped s <;>
            simp [encodeParams, encodedEntry, hs]
    rw [h, List.append_assoc]
  · intro str hstr
    have hs : scalarDropped (Scalar.s str) = false := by
      simp [scalarDropped, hstr]
    simp [encodedEntry, hs]

/-- Witness for C5 as amended: the disposition at a concrete params
mapping, and a kept non-empty entry. -/
theorem params_dropping_disposition_witness :
    (buildRequest HttpMethod.get "/api/v1/Emails/query"
        (some ⟨[("include", some (Scalar.s ""))]⟩) none).queryParams =
      encodeParams [("include", some (Scalar.s ""))] ∧
    ("Attachments" : String) ≠ "" ∧
    encodedEntry "include" (some (Scalar.s "Attachments")) =
      [("include", Scalar.s "Attachments")] :=
  ⟨(params_dropping_disposition HttpMethod.get "/api/v1/Emails/query" none
      [("include", some (Scalar.s ""))] [] [] "include"
      (some (Scalar.s ""))).1,
    by decide,
    (params_dropping_disposition HttpMethod.get "/api/v1/Emails/query" none
      [("include", some (Scalar.s ""))] [] [] "include"
      (some (Scalar.s ""))).2.2.2.2.1 "Attachments" (by decide)⟩

/-- C6 counterexample: queryCustomerSummary is a query-style method (it
accepts filter, include, order, pageSize, pageNumber and passes the
uniform parameter set), yet the path it builds is the customer-summary
view path, which does not end in the uniform suffix /query. -/
theorem queryCustomerSummary_path_cex :
    CompaniesClient.queryCustomerSummary ⟨client404⟩ "f" "i" "o" 50 0 =
      client404.get "/api/v1/Companies/views/customer-summary"
        (some ⟨stdQueryParams "f" "i" "o" 50 0⟩) ∧
    pathEndsWithQuery "/api/v1/Companies/views/customer-summary" = false :=
  ⟨rfl, by decide⟩

/-- C6 as amended: every query-style method passes exactly the uniform
parameter set filter, include, order, pageSize, pageNumber with the
caller arguments verbatim; queryEmails, queryCompanies and
queryFieldDefinitions build paths ending in the uniform suffix /query,
while queryCustomerSummary builds the customer-summary view path, which
does not end in /query. -/
theorem query_methods_uniform (c : LockstepApi) (filter inc order : String)
    (pageSize pageNumber : Int) :
    (EmailsClient.queryEmails ⟨c⟩ filter inc order pageSize pageNumber =
        c.get "/api/v1/Emails/query"
          (some ⟨stdQueryParams filter inc order pageSize pageNumber⟩) ∧
      pathEndsWithQuery "/api/v1/Emails/query" = true) ∧
    (CompaniesClient.queryCompanies ⟨c⟩ filter inc order pageSize pageNumber =
        c.get "/api/v1/Companies/query"
          (some ⟨stdQueryParams filter inc order pageSize pageNumber⟩) ∧
      pathEndsWithQuery "/api/v1/Companies/query" = true) ∧
    (CustomFieldDefinitionsClient.queryFieldDefinitions ⟨c⟩ filter inc order
        pageSize pageNumber =
        c.request HttpMethod.get "/api/v1/CustomFieldDefinitions/query"
          (some ⟨stdQueryParams filter inc order pageSize pageNumber⟩) none ∧
      pathEndsWithQuery "/api/v1/CustomFieldDefinitions/query" = true) ∧
    (CompaniesClient.queryCustomerSummary ⟨c⟩ filter inc order pageSize
        pageNumber =
        c.get "/api/v1/Companies/views/customer-summary"
          (some ⟨stdQueryParams filter inc order pageSize pageNumber⟩) ∧
      pathEndsWithQuery "/api/v1/Companies/views/customer-summary" = false) :=
  ⟨⟨rfl, by decide⟩, ⟨rfl, by decide⟩, ⟨rfl, by decide⟩, ⟨rfl, by decide⟩⟩

/-- C7: every resource-client method across the four clients builds one
path and at most one parameter object and is extensionally equal, for all
arguments, to a single API Client verb call returning that call result
unmodified, with no validation, retries or branching. -/
theorem methods_single_call (c : LockstepApi)
    (id inc emailId nonce filter order : String) (body : Json)
    (pageSize pageNumber : Int) :
    EmailsClient.retrieveEmail ⟨c⟩ id inc =
      c.get ("/api/v1/Emails/" ++ id)
        (some ⟨[("include", some (Scalar.s inc))]⟩) ∧
    EmailsClient.updateEmail ⟨c⟩ id body =
      c.patch ("/api/v1/Emails/" ++ id) none (some body) ∧
    EmailsClient.deleteEmail ⟨c⟩ id =
      c.delete ("/api/v1/Emails/" ++ id) none ∧
    EmailsClient.retrieveEmailLogo ⟨c⟩ emailId nonce =
      c.get ("/api/v1/Emails/" ++ emailId ++ "/logo/" ++ nonce) none ∧
    EmailsClient.createEmails ⟨c⟩ body =
      c.post "/api/v1/Emails" none (some body) ∧
    EmailsClient.queryEmails ⟨c⟩ filter inc order pageSize pageNumber =
      c.get "/api/v1/Emails/query"
        (some ⟨stdQueryParams filter inc order pageSize pageNumber⟩) ∧
    LeadsClient.createLeads ⟨c⟩ body =
      c.post "/api/v1/Leads" none (some body) ∧
    CompaniesClient.retrieveCompany ⟨c⟩ id inc =
      c.get ("/api/v1/Companies/" ++ id)
        (some ⟨[("include", some (Scalar.s inc))]⟩) ∧
    CompaniesClient.updateCompany ⟨c⟩ id body =
      c.patch ("/api/v1/Companies/" ++ id) none (some body) ∧
    CompaniesClient.disableCompany ⟨c⟩ id =
      c.delete ("/api/v1/Companies/" ++ id) none ∧
    CompaniesClient.createCompanies ⟨c⟩ body =
      c.post "/api/v1/Companies" none (some body) ∧
    CompaniesClient.queryCompanies ⟨c⟩ filter inc order pageSize pageNumber =
      c.get "/api/v1/Companies/query"
        (some ⟨stdQueryParams filter inc order pageSize pageNumber⟩) ∧
    CompaniesClient.queryCustomerSummary ⟨c⟩ filter inc order pageSize
        pageNumber =
      c.get "/api/v1/Companies/views/customer-summary"
        (some ⟨stdQueryParams filter inc order pageSize pageNumber⟩) ∧
    CompaniesClient.retrieveCustomerDetail ⟨c⟩ id =
      c.get ("/api/v1/Companies/views/customer-details/" ++ id) none ∧
    CustomFieldDefinitionsClient.retrieveFieldDefinition ⟨c⟩ id inc =
      c.request HttpMethod.get ("/api/v1/CustomFieldDefinitions/" ++ id)
        (some ⟨[("include", some (Scalar.s inc))]⟩) none ∧
    CustomFieldDefinitionsClient.updateFieldDefinition ⟨c⟩ id body =
      c.request HttpMethod.patch ("/api/v1/CustomFieldDefinitions/" ++ id)
        none (some body) ∧
    CustomFieldDefinitionsClient.deleteFieldDefinition ⟨c⟩ id =
      c.request HttpMethod.delete ("/api/v1/CustomFieldDefinitions/" ++ id)
        none none ∧
    CustomFieldDefinitionsClient.createFieldDefinitions ⟨c⟩ body =
      c.request HttpMethod.post "/api/v1/CustomFieldDefinitions" none
        (some body) ∧
    CustomFieldDefinitionsClient.queryFieldDefinitions ⟨c⟩ filter inc order
        pageSize pageNumber =
      c.request HttpMethod.get "/api/v1/CustomFieldDefinitions/query"
        (some ⟨stdQueryParams filter inc order pageSize pageNumber⟩) none :=
  ⟨rfl, rfl, rfl, rfl, rfl, rfl, rfl, rfl, rfl, rfl, rfl, rfl, rfl, rfl,
    rfl, rfl, rfl, rfl, rfl⟩

/-- C8: each verb operation is extensionally equal to the generic request
at its verb name, so the CustomFieldDefinitionsClient style of calling
request with the delete verb directly and the EmailsClient style of
calling the delete verb operation dispatch the identical Request
Descriptor through the transport and return identical results for the
same url. -/
theorem verbs_delegate_to_request (c : LockstepApi) (p : String)
    (o : Option Options) (b : Option Json) (id : String) :
    c.get p o = c.request HttpMethod.get p o none ∧
    c.post p o b = c.request HttpMethod.post p o b ∧
    c.patch p o b = c.request HttpMethod.patch p o b ∧
    c.delete p o = c.request HttpMethod.delete p o none ∧
    CustomFieldDefinitionsClient.deleteFieldDefinition ⟨c⟩ id =
      c.request HttpMethod.delete ("/api/v1/CustomFieldDefinitions/" ++ id)
        none none ∧
    EmailsClient.deleteEmail ⟨c⟩ id =
      c.delete ("/api/v1/Emails/" ++ id) none ∧
    c.request HttpMethod.delete p none none =
      normalize (c.transport (buildRequest HttpMethod.delete p none none)) ∧
    c.delete p none =
      normalize (c.transport (buildRequest HttpMethod.delete p none none)) :=
  ⟨rfl, rfl, rfl, rfl, rfl, rfl, rfl, rfl⟩

/-- C10: the id-taking resource methods build their paths by raw
character-for-character concatenation of the fixed prefix and the caller
string, with no URL-encoding or validation; a benign id targets the
intended single-item Emails route, while an id containing a slash or a
query or fragment delimiter makes the dispatched request target a
different route. -/
theorem raw_path_interpolation (c : LockstepApi) (id emailId nonce inc : String) :
    EmailsClient.retrieveEmail ⟨c⟩ id inc =
      c.get ("/api/v1/Emails/" ++ id)
        (some ⟨[("include", some (Scalar.s inc))]⟩) ∧
    EmailsClient.retrieveEmailLogo ⟨c⟩ emailId nonce =
      c.get ("/api/v1/Emails/" ++ emailId ++ "/logo/" ++ nonce) none ∧
    CustomFieldDefinitionsClient.retrieveFieldDefinition ⟨c⟩ id inc =
      c.request HttpMethod.get ("/api/v1/CustomFieldDefinitions/" ++ id)
        (some ⟨[("include", some (Scalar.s inc))]⟩) none ∧
    isEmailsItemRoute ("/api/v1/Emails/" ++ "abc-123") = true ∧
    isEmailsItemRoute ("/api/v1/Emails/" ++ "a/b") = false ∧
    isEmailsItemRoute ("/api/v1/Emails/" ++ ("a" ++ Char.toString (Char.ofNat 63) ++ "x=1")) = false ∧
    isEmailsItemRoute ("/api/v1/Emails/" ++ ("a" ++ Char.toString (Char.ofNat 35) ++ "frag")) = false :=
  ⟨rfl, rfl, rfl, by decide, by decide, by decide, by decide⟩

/-!
State-explicit translations of the resource-client methods.  In the
TypeScript source a method runs against a mutable receiver, so its
faithful embedding maps the receiver state to the call result together
with the receiver state after the body has run.  Every method body
consists only of const bindings and a single delegated call and contains
no assignment, so the resulting state is the incoming receiver
unchanged; these translations make that explicit so it can be proved. -/

def EmailsClient.retrieveEmailSt (self : EmailsClient) (id inc : String) :
    ApiResult × EmailsClient :=
  let url := "/api/v1/Emails/" ++ id
  let options : Options := ⟨[("include", some (Scalar.s inc))]⟩
  (self.client.get url (some options), self)

def EmailsClient.updateEmailSt (self : EmailsClient) (id : String)
    (body : Json) : ApiResult × EmailsClient :=
  let url := "/api/v1/Emails/" ++ id
  (self.client.patch url none (some body), self)

def EmailsClient.deleteEmailSt (self : EmailsClient) (id : String) :
    ApiResult × EmailsClient :=
  let url := "/api/v1/Emails/" ++ id
  (self.client.delete url none, self)

def EmailsClient.retrieveEmailLogoSt (self : EmailsClient)
    (emailId nonce : String) : ApiResult × EmailsClient :=
  let url := "/api/v1/Emails/" ++ emailId ++ "/logo/" ++ nonce
  (self.client.get url none, self)

def EmailsClient.createEmailsSt (self : EmailsClient) (body : Json) :
    ApiResult × EmailsClient :=
  let url := "/api/v1/Emails"
  (self.client.post url none (some body), self)

def EmailsClient.queryEmailsSt (self : EmailsClient) (filter inc order : String)
    (pageSize pageNumber : Int) : ApiResult × EmailsClient :=
  let url := "/api/v1/Emails/query"
  let options : Options := ⟨stdQueryParams filter inc order pageSize pageNumber⟩
  (self.client.get url (some options), self)

def LeadsClient.createLeadsSt (self : LeadsClient) (body : Json) :
    ApiResult × LeadsClient :=
  let url := "/api/v1/Leads"
  (self.client.post url none (some body), self)

def CompaniesClient.retrieveCompanySt (self : CompaniesClient)
    (id inc : String) : ApiResult × CompaniesClient :=
  let url := "/api/v1/Companies/" ++ id
  let options : Options := ⟨[("include", some (Scalar.s inc))]⟩
  (self.client.get url (some options), self)

def CompaniesClient.updateCompanySt (self : CompaniesClient) (id : String)
    (body : Json) : ApiResult × CompaniesClient :=
  let url := "/api/v1/Companies/" ++ id
  (self.client.patch url none (some body), self)

def CompaniesClient.disableCompanySt (self : CompaniesClient) (id : String) :
    ApiResult × CompaniesClient :=
  let url := "/api/v1/Companies/" ++ id
  (self.client.delete url none, self)

def CompaniesClient.createCompaniesSt (self : CompaniesClient) (body : Json) :
    ApiResult × CompaniesClient :=
  let url := "/api/v1/Companies"
  (self.client.post url none (some body), self)

def CompaniesClient.queryCompaniesSt (self : CompaniesClient)
    (filter inc order : String) (pageSize pageNumber : Int) :
    ApiResult × CompaniesClient :=
  let url := "/api/v1/Companies/query"
  let options : Options := ⟨stdQueryParams filter inc order pageSize pageNumber⟩
  (self.client.get url (some options), self)

def CompaniesClient.queryCustomerSummarySt (self : CompaniesClient)
    (filter inc order : String) (pageSize pageNumber : Int) :
    ApiResult × CompaniesClient :=
  let url := "/api/v1/Companies/views/customer-summary"
  let options : Options := ⟨stdQueryParams filter inc order pageSize pageNumber⟩
  (self.client.get url (some options), self)

def CompaniesClient.retrieveCustomerDetailSt (self : CompaniesClient)
    (id : String) : ApiResult × CompaniesClient :=
  let url := "/api/v1/Companies/views/customer-details/" ++ id
  (self.client.get url none, self)

def CustomFieldDefinitionsClient.retrieveFieldDefinitionSt
    (self : CustomFieldDefinitionsClient) (id inc : String) :
    ApiResult × CustomFieldDefinitionsClient :=
  let url := "/api/v1/CustomFieldDefinitions/" ++ id
  let options : Options := ⟨[("include", some (Scalar.s inc))]⟩
  (self.client.request HttpMethod.get url (some options) none, self)

def CustomFieldDefinitionsClient.updateFieldDefinitionSt
    (self : CustomFieldDefinitionsClient) (id : String) (body : Json) :
    ApiResult × CustomFieldDefinitionsClient :=
  let url := "/api/v1/CustomFieldDefinitions/" ++ id
  (self.client.request HttpMethod.patch url none (some body), self)

def CustomFieldDefinitionsClient.deleteFieldDefinitionSt
    (self : CustomFieldDefinitionsClient) (id : String) :
    ApiResult × CustomFieldDefinitionsClient :=
  let url := "/api/v1/CustomFieldDefinitions/" ++ id
  (self.client.request HttpMethod.delete url none none, self)

def CustomFieldDefinitionsClient.createFieldDefinitionsSt
    (self : CustomFieldDefinitionsClient) (body : Json) :
    ApiResult × CustomFieldDefinitionsClient :=
  let url := "/api/v1/CustomFieldDefinitions"
  (self.client.request HttpMethod.post url none (some body), self)

def CustomFieldDefinitionsClient.queryFieldDefinitionsSt
    (self : CustomFieldDefinitionsClient) (filter inc order : String)
    (pageSize pageNumber : Int) : ApiResult × CustomFieldDefinitionsClient :=
  let url := "/api/v1/CustomFieldDefinitions/query"
  let options : Options := ⟨stdQueryParams filter inc order pageSize pageNumber⟩
  (self.client.request HttpMethod.get url (some options) none, self)

/-- C9: each resource client owns exactly one piece of state, the
reference to the API Client stored verbatim by its constructor; and in
the state-explicit form of every resource-client method the receiver
comes out unchanged while the call result is the pure composition of the
arguments into one API Client call, so no method mutates the resource
client, the stored API Client reference, or any other state. -/
theorem resource_clients_stateless (c : LockstepApi) (e : EmailsClient)
    (l : LeadsClient) (co : CompaniesClient)
    (cf : CustomFieldDefinitionsClient) (id inc emailId nonce filter order : String)
    (body : Json) (pageSize pageNumber : Int) :
    (EmailsClient.mk c).client = c ∧
    (LeadsClient.mk c).client = c ∧
    (CompaniesClient.mk c).client = c ∧
    (CustomFieldDefinitionsClient.mk c).client = c ∧
    e.retrieveEmailSt id inc = (e.retrieveEmail id inc, e) ∧
    e.updateEmailSt id body = (e.updateEmail id body, e) ∧
    e.deleteEmailSt id = (e.deleteEmail id, e) ∧
    e.retrieveEmailLogoSt emailId nonce = (e.retrieveEmailLogo emailId nonce, e) ∧
    e.createEmailsSt body = (e.createEmails body, e) ∧
    e.queryEmailsSt filter inc order pageSize pageNumber =
      (e.queryEmails filter inc order pageSize pageNumber, e) ∧
    l.createLeadsSt body = (l.createLeads body, l) ∧
    co.retrieveCompanySt id inc = (co.retrieveCompany id inc, co) ∧
    co.updateCompanySt id body = (co.updateCompany id body, co) ∧
    co.disableCompanySt id = (co.disableCompany id, co) ∧
    co.createCompaniesSt body = (co.createCompanies body, co) ∧
    co.queryCompaniesSt filter inc order pageSize pageNumber =
      (co.queryCompanies filter inc order pageSize pageNumber, co) ∧
    co.queryCustomerSummarySt filter inc order pageSize pageNumber =
      (co.queryCustomerSummary filter inc order pageSize pageNumber, co) ∧
    co.retrieveCustomerDetailSt id = (co.retrieveCustomerDetail id, co) ∧
    cf.retrieveFieldDefinitionSt id inc = (cf.retrieveFieldDefinition id inc, cf) ∧
    cf.updateFieldDefinitionSt id body = (cf.updateFieldDefinition id body, cf) ∧
    cf.deleteFieldDefinitionSt id = (cf.deleteFieldDefinition id, cf) ∧
    cf.createFieldDefinitionsSt body = (cf.createFieldDefinitions body, cf) ∧
    cf.queryFieldDefinitionsSt filter inc order pageSize pageNumber =
      (cf.queryFieldDefinitions filter inc order pageSize pageNumber, cf) :=
  ⟨rfl, rfl, rfl, rfl, rfl, rfl, rfl, rfl, rfl, rfl, rfl, rfl, rfl, rfl,
    rfl, rfl, rfl, rfl, rfl, rfl, rfl, rfl, rfl⟩

end Lockstep
